import Mathlib

/-!
Verification of the `django_orm_queries` repository: a shallow embedding of
its three-table data model (`orm/models.py`) and its four request handlers
(`orm/views.py`), with theorems settling the specification's claims.

Modelling conventions:
* A `Country`, `State`, `City` record mirrors the fields declared in
  `orm/models.py`; a foreign key is stored as the referenced row's id
  (the `country_id` / `state_id` database columns).
* The persistent store is the triple of tables plus the auto-increment
  sequence for `Country.id` (`AutoField`); the sequence only grows.
* A handler is a function from the store to a pair of its outcome
  (a rendered response or the unhandled error it raises) and the store
  after the handler ran.  Django runs each ORM call in autocommit mode,
  so a row inserted before a later Python error stays persisted; the
  returned store reflects that.
* `phonecode` is an `IntegerField`; the string literals `"333"` / `"303"`
  passed in `views.py` are coerced to the integers 333 / 303 on save.
-/

namespace DjangoOrm

/-- A row of the `countries` table (`Country` in `orm/models.py`):
auto primary key `id`, `sortname` (`max_length=2`, unique), `name`
(unique, `max_length=50`), `phonecode` integer. -/
structure Country where
  id : Nat
  sortname : String
  name : String
  phonecode : Nat
deriving DecidableEq, Repr

/-- A row of the `states` table (`State` in `orm/models.py`): primary key
`id`, `name`, and the `country_id` foreign-key column
(`ForeignKey(Country, on_delete=CASCADE)`). -/
structure State where
  id : Nat
  name : String
  country_id : Nat
deriving DecidableEq, Repr

/-- A row of the `cities` table (`City` in `orm/models.py`): primary key
`id`, `name`, and the `state_id` foreign-key column
(`ForeignKey(State, on_delete=CASCADE)`). -/
structure City where
  id : Nat
  name : String
  state_id : Nat
deriving DecidableEq, Repr

/-- The persistent data store: the three tables of `orm/models.py`, plus
the auto-increment sequence backing `Country.id` (`AutoField`). -/
structure Store where
  countries : List Country
  states : List State
  cities : List City
  nextCountryId : Nat
deriving DecidableEq, Repr

/-- A store with all three tables empty; the `AutoField` sequence starts
at 1. -/
def emptyStore : Store := ⟨[], [], [], 1⟩

/-- The unhandled failures the handlers can raise (spec §7):
`integrityError` is the database uniqueness violation on `Country.name` /
`Country.sortname`; `attributeError` is Python's failure when an attribute
absent from an object is read; `renderTypeError` is the failure of a
`render` call missing its required template-name argument. -/
inductive HandlerError where
  | integrityError
  | attributeError
  | renderTypeError
deriving DecidableEq, Repr

/-- The context dictionary built by `all_orm_queries` in `orm/views.py`:
one entry per projection, in source order. -/
structure OrmContext where
  all_country_asc : List Country
  all_country_desc : List Country
  all_country_limit : List Country
  all_country_distinct : List Country
  all_country_between : List Country
  all_country_select : List String
  all_country_count : List (Nat × Nat)
deriving DecidableEq, Repr

/-- A successful handler outcome: `render(request, template, context)`.
The list/aggregate view passes the seven-projection context; the other
handlers pass no context (Django's default `context=None`). -/
inductive Response where
  | rendered (template : String) (context : Option OrmContext)
deriving DecidableEq, Repr

/-- `Country.objects.create(name=..., sortname=..., phonecode=...)`:
a single `INSERT` into `countries`.  The insert fails with an
`IntegrityError` when a row with the same `name` or the same `sortname`
already exists (the two `unique=True` constraints); a failed insert
leaves the store unchanged.  On success the new row takes the next value
of the id sequence and is appended to the table. -/
def countryCreate (s : Store) (name sortname : String) (phonecode : Nat) :
    Except HandlerError Country × Store :=
  if s.countries.any (fun c => c.name == name || c.sortname == sortname) then
    (.error .integrityError, s)
  else
    let r : Country := ⟨s.nextCountryId, sortname, name, phonecode⟩
    (.ok r,
     { s with
        countries := s.countries ++ [r]
        nextCountryId := s.nextCountryId + 1 })

/-- `record_one.query` in `insert_create_queries`: `record_one` is a
model *instance* (the value returned by `objects.create`), and Django
model instances have no `query` attribute — only querysets do — so the
read raises `AttributeError`. -/
def instanceQueryAttr (_record : Country) : Except HandlerError Unit :=
  .error .attributeError

/-- `render(request)` with no template name: `render` requires the
template-name argument, so the call raises a `TypeError`. -/
def renderMissingTemplate : Except HandlerError Response :=
  .error .renderTypeError

/-- `Country.objects.all().order_by('sortname')[:5]` — ascending by
`sortname`, first 5. -/
def all_country_asc (s : Store) : List Country :=
  (s.countries.mergeSort (fun a b => a.sortname ≤ b.sortname)).take 5

/-- `Country.objects.all().order_by('-phonecode')[:5]` — descending by
`phonecode`, first 5. -/
def all_country_desc (s : Store) : List Country :=
  (s.countries.mergeSort (fun a b => b.phonecode ≤ a.phonecode)).take 5

/-- `Country.objects.all()[:5]` — first 5 rows. -/
def all_country_limit (s : Store) : List Country :=
  s.countries.take 5

/-- `Country.objects.distinct()[:5]` — `SELECT DISTINCT` over all
columns, first 5. -/
def all_country_distinct (s : Store) : List Country :=
  s.countries.dedup.take 5

/-- `Country.objects.filter(id__range=(1,50))[:5]` — rows whose `id`
lies in the inclusive range `BETWEEN 1 AND 50`, first 5. -/
def all_country_between (s : Store) : List Country :=
  (s.countries.filter (fun c => 1 ≤ c.id && c.id ≤ 50)).take 5

/-- `Country.objects.values('name')[:5]` — projection to the `name`
column, first 5. -/
def all_country_select (s : Store) : List String :=
  (s.countries.map (·.name)).take 5

/-- `State.objects.values('country_id').annotate(country_count=Count('country_id', distinct=True))`:
`SELECT country_id, COUNT(DISTINCT country_id) FROM states GROUP BY
country_id`.  One output pair per distinct `country_id`, whose second
component counts the distinct `country_id` values inside that group. -/
def all_country_count (states : List State) : List (Nat × Nat) :=
  (states.map (·.country_id)).dedup.map
    (fun k =>
      (k, ((states.filter (fun st => st.country_id == k)).map
            (·.country_id)).dedup.length))

/-- The seven-projection context dictionary built by `all_orm_queries`. -/
def ormContext (s : Store) : OrmContext :=
  { all_country_asc := all_country_asc s
    all_country_desc := all_country_desc s
    all_country_limit := all_country_limit s
    all_country_distinct := all_country_distinct s
    all_country_between := all_country_between s
    all_country_select := all_country_select s
    all_country_count := all_country_count s.states }

/-- Handler for `queries/` (`all_orm_queries` in `orm/views.py`): builds
the seven projections, prints the aggregate's generated query
(diagnostic only), and renders `orm_queries.html` with the context.
It issues no write, so the store comes back unchanged. -/
def all_orm_queries (s : Store) : Except HandlerError Response × Store :=
  (.ok (.rendered "orm_queries.html" (some (ormContext s))), s)

/-- Handler for `queries/create/` (`insert_create_queries` in
`orm/views.py`): creates `Country(name="Test 4", sortname="XT",
phonecode="333")`, then evaluates `print(record_one.query)`, then
`return render(request)`. -/
def insert_create_queries (s : Store) : Except HandlerError Response × Store :=
  match countryCreate s "Test 4" "XT" 333 with
  | (.error e, s') => (.error e, s')
  | (.ok record_one, s') =>
    match instanceQueryAttr record_one with
    | .error e => (.error e, s')
    | .ok _ => (renderMissingTemplate, s')

/-- Handler for `queries/update/` (`update_queries` in `orm/views.py`):
creates `Country(name="Test 1", sortname="T", phonecode="303")` and
renders `insert_create_queries.html` with no context.  No existing row
is modified. -/
def update_queries (s : Store) : Except HandlerError Response × Store :=
  match countryCreate s "Test 1" "T" 303 with
  | (.error e, s') => (.error e, s')
  | (.ok _record_one, s') =>
    (.ok (.rendered "insert_create_queries.html" none), s')

/-- Handler for `queries/delete/` (`delete_queries` in `orm/views.py`):
creates `Country(name="Test 1", sortname="T", phonecode="303")` and
renders `insert_create_queries.html` with no context.  No row is
deleted. -/
def delete_queries (s : Store) : Except HandlerError Response × Store :=
  match countryCreate s "Test 1" "T" 303 with
  | (.error e, s') => (.error e, s')
  | (.ok _record_one, s') =>
    (.ok (.rendered "insert_create_queries.html" none), s')

/-- Deletion of a `Country` row at the storage layer, following the
declared `on_delete=models.CASCADE` of `State.country` and `City.state`
(`orm/models.py`): the country is removed, every `State` whose
`country_id` references it is removed, and every `City` whose `state_id`
references one of those removed states is removed. -/
def deleteCountry (s : Store) (cid : Nat) : Store :=
  let deletedStates := s.states.filter (fun st => st.country_id == cid)
  { s with
    countries := s.countries.filter (fun c => c.id != cid)
    states := s.states.filter (fun st => st.country_id != cid)
    cities := s.cities.filter
      (fun ct => ! deletedStates.any (fun st => st.id == ct.state_id)) }

/-! ### Basic facts about `countryCreate` -/

/-- When no existing country shares the requested `name` or `sortname`,
`countryCreate` succeeds: the new row takes the next sequence id and is
appended, and the other tables are untouched. -/
theorem countryCreate_ok (s : Store) (nm sn : String) (pc : Nat)
    (h : ∀ c ∈ s.countries, c.name ≠ nm ∧ c.sortname ≠ sn) :
    countryCreate s nm sn pc =
      (Except.ok ⟨s.nextCountryId, sn, nm, pc⟩,
       { s with
          countries := s.countries ++ [⟨s.nextCountryId, sn, nm, pc⟩]
          nextCountryId := s.nextCountryId + 1 }) := by
  have hc : s.countries.any (fun c => c.name == nm || c.sortname == sn) = false := by
    simp only [List.any_eq_false, Bool.or_eq_true, beq_iff_eq, not_or]
    exact h
  simp [countryCreate, hc]

/-- When some existing country already has the requested `name` or
`sortname`, `countryCreate` fails with the uniqueness violation and the
store is unchanged. -/
theorem countryCreate_dup (s : Store) (nm sn : String) (pc : Nat)
    (h : ∃ c ∈ s.countries, c.name = nm ∨ c.sortname = sn) :
    countryCreate s nm sn pc = (Except.error HandlerError.integrityError, s) := by
  have hc : s.countries.any (fun c => c.name == nm || c.sortname == sn) = true := by
    simp only [List.any_eq_true, Bool.or_eq_true, beq_iff_eq]
    exact h
  simp [countryCreate, hc]

/-- `countryCreate` either fails leaving the store unchanged, or appends
exactly the one new row. -/
theorem countryCreate_cases (s : Store) (nm sn : String) (pc : Nat) :
    countryCreate s nm sn pc = (Except.error HandlerError.integrityError, s) ∨
    countryCreate s nm sn pc =
      (Except.ok ⟨s.nextCountryId, sn, nm, pc⟩,
       { s with
          countries := s.countries ++ [⟨s.nextCountryId, sn, nm, pc⟩]
          nextCountryId := s.nextCountryId + 1 }) := by
  by_cases hc : s.countries.any (fun c => c.name == nm || c.sortname == sn) = true
  · left
    simp [countryCreate, hc]
  · right
    simp only [Bool.not_eq_true] at hc
    simp [countryCreate, hc]

/-! ### Claim C2 -/

/-- C2, counterexample: on the empty store, `insert_create_queries`
fails, but with the `AttributeError` raised by `print(record_one.query)`
(a model instance has no `query` attribute), not with the error of the
malformed `render(request)` call, which is never reached. -/
theorem C2_counterexample :
    (insert_create_queries emptyStore).1 = Except.error HandlerError.attributeError ∧
    HandlerError.attributeError ≠ HandlerError.renderTypeError :=
  ⟨rfl, by decide⟩

/-- C2, amended: from every store, `insert_create_queries` never returns
a successful response — it fails with the uniqueness violation when the
hardcoded country already exists, and otherwise with the
`AttributeError` on `record_one.query`; the malformed `render(request)`
call is unreachable. -/
theorem C2_create_handler_always_fails (s : Store) :
    (insert_create_queries s).1 = Except.error HandlerError.integrityError ∨
    (insert_create_queries s).1 = Except.error HandlerError.attributeError := by
  rcases countryCreate_cases s "Test 4" "XT" 333 with h | h
  · left
    simp [insert_create_queries, h]
  · right
    simp [insert_create_queries, h, instanceQueryAttr]

/-! ### Claim C3 -/

/-- C3: from a store with no country named "Test 4" and none with
sortname "XT", creating `Country(name="Test 4", sortname="XT",
phonecode=333)` succeeds and appends exactly one new row, leaving the
other tables untouched; an identical second create on the resulting
store fails with the uniqueness violation and leaves the store
unchanged. -/
theorem C3_create_succeeds_once (s : Store)
    (h : ∀ c ∈ s.countries, c.name ≠ "Test 4" ∧ c.sortname ≠ "XT") :
    ∃ r s',
      countryCreate s "Test 4" "XT" 333 = (Except.ok r, s') ∧
      s'.countries = s.countries ++ [r] ∧
      s'.states = s.states ∧
      s'.cities = s.cities ∧
      countryCreate s' "Test 4" "XT" 333 =
        (Except.error HandlerError.integrityError, s') := by
  refine ⟨⟨s.nextCountryId, "XT", "Test 4", 333⟩, _,
    countryCreate_ok s "Test 4" "XT" 333 h, rfl, rfl, rfl, ?_⟩
  exact countryCreate_dup _ "Test 4" "XT" 333
    ⟨⟨s.nextCountryId, "XT", "Test 4", 333⟩, by simp, Or.inl rfl⟩

/-- C3, witness: the empty store contains neither the name nor the
sortname, so the create/re-create scenario holds there. -/
theorem C3_witness :
    ∃ r s',
      countryCreate emptyStore "Test 4" "XT" 333 = (Except.ok r, s') ∧
      s'.countries = emptyStore.countries ++ [r] ∧
      s'.states = emptyStore.states ∧
      s'.cities = emptyStore.cities ∧
      countryCreate s' "Test 4" "XT" 333 =
        (Except.error HandlerError.integrityError, s') :=
  C3_create_succeeds_once emptyStore (by simp [emptyStore])

/-! ### Claim C9 -/

/-- C9: whenever the update handler or the delete handler returns a
successful response, the resulting store has exactly one new `Country`
row appended after all pre-existing rows, and the `states` and `cities`
tables are untouched: neither handler modifies or deletes anything. -/
theorem C9_update_delete_insert_only (s : Store) :
    (∀ resp, (update_queries s).1 = Except.ok resp →
      (update_queries s).2.countries =
        s.countries ++ [⟨s.nextCountryId, "T", "Test 1", 303⟩] ∧
      (update_queries s).2.states = s.states ∧
      (update_queries s).2.cities = s.cities) ∧
    (∀ resp, (delete_queries s).1 = Except.ok resp →
      (delete_queries s).2.countries =
        s.countries ++ [⟨s.nextCountryId, "T", "Test 1", 303⟩] ∧
      (delete_queries s).2.states = s.states ∧
      (delete_queries s).2.cities = s.cities) := by
  rcases countryCreate_cases s "Test 1" "T" 303 with h | h
  · constructor
    · intro resp hresp
      simp [update_queries, h] at hresp
    · intro resp hresp
      simp [delete_queries, h] at hresp
  · constructor
    · intro resp _
      simp [update_queries, h]
    · intro resp _
      simp [delete_queries, h]

/-- C9, witness: on the empty store both handlers succeed and append
exactly the hardcoded row. -/
theorem C9_witness :
    (update_queries emptyStore).2.countries =
      emptyStore.countries ++ [⟨emptyStore.nextCountryId, "T", "Test 1", 303⟩] ∧
    (update_queries emptyStore).2.states = emptyStore.states ∧
    (update_queries emptyStore).2.cities = emptyStore.cities :=
  (C9_update_delete_insert_only emptyStore).1
    (Response.rendered "insert_create_queries.html" none) rfl

/-! ### Claim C10 -/

/-- C10: `update_queries` and `delete_queries` are extensionally equal;
on success each inserts the `Country` row with name "Test 1", sortname
"T", phonecode 303 and renders `insert_create_queries.html` with no
context, and running the delete handler directly after a successful
update handler fails with the uniqueness violation. -/
theorem C10_update_delete_equal :
    (∀ s : Store, update_queries s = delete_queries s) ∧
    (∀ s : Store, ∀ resp, (update_queries s).1 = Except.ok resp →
      resp = Response.rendered "insert_create_queries.html" none ∧
      (update_queries s).2.countries =
        s.countries ++ [⟨s.nextCountryId, "T", "Test 1", 303⟩] ∧
      (delete_queries (update_queries s).2).1 =
        Except.error HandlerError.integrityError) := by
  constructor
  · intro s
    rfl
  · intro s resp hresp
    rcases countryCreate_cases s "Test 1" "T" 303 with h | h
    · simp [update_queries, h] at hresp
    · have hdup :
          countryCreate (update_queries s).2 "Test 1" "T" 303 =
            (Except.error HandlerError.integrityError, (update_queries s).2) := by
        apply countryCreate_dup
        refine ⟨⟨s.nextCountryId, "T", "Test 1", 303⟩, ?_, Or.inl rfl⟩
        simp [update_queries, h]
      refine ⟨?_, ?_, ?_⟩
      · have : (update_queries s).1 =
            Except.ok (Response.rendered "insert_create_queries.html" none) := by
          simp [update_queries, h]
        rw [this] at hresp
        exact (Except.ok.inj hresp).symm
      · simp [update_queries, h]
      · simp [delete_queries, hdup]

/-- C10, witness: on the empty store the update handler succeeds
rendering the fixed template, and the delete handler run right after
fails with the uniqueness violation. -/
theorem C10_witness :
    Response.rendered "insert_create_queries.html" none =
      Response.rendered "insert_create_queries.html" none ∧
    (update_queries emptyStore).2.countries =
      emptyStore.countries ++ [⟨emptyStore.nextCountryId, "T", "Test 1", 303⟩] ∧
    (delete_queries (update_queries emptyStore).2).1 =
      Except.error HandlerError.integrityError :=
  (C10_update_delete_equal).2 emptyStore
    (Response.rendered "insert_create_queries.html" none) rfl

/-! ### Claim C4 -/

/-- C4, counterexample: the row inserted by the update handler on the
empty store has sortname "T", whose length is 1, so not every
handler-inserted `Country` has a 2-character sortname. -/
theorem C4_counterexample :
    ¬ (∀ c ∈ (update_queries emptyStore).2.countries, c.sortname.length = 2) := by
  decide

/-- C4, amended: every `Country` row present after any handler runs is
either a pre-existing row or a freshly inserted row whose sortname has
length at most 2 (the schema's `max_length=2`); the create handler's
insert has length exactly 2, while the update and delete handlers insert
the length-1 sortname "T". -/
theorem C4_inserted_sortname_length (s : Store) :
    (∀ c ∈ (insert_create_queries s).2.countries,
      c ∈ s.countries ∨ c.sortname.length = 2) ∧
    (∀ c ∈ (update_queries s).2.countries,
      c ∈ s.countries ∨ (c.sortname.length ≤ 2 ∧ c.sortname.length = 1)) ∧
    (∀ c ∈ (delete_queries s).2.countries,
      c ∈ s.countries ∨ (c.sortname.length ≤ 2 ∧ c.sortname.length = 1)) := by
  refine ⟨?_, ?_, ?_⟩
  · intro c hc
    rcases countryCreate_cases s "Test 4" "XT" 333 with h | h <;>
      simp [insert_create_queries, h, instanceQueryAttr] at hc
    · exact Or.inl hc
    · rcases hc with hc | hc
      · exact Or.inl hc
      · subst hc
        exact Or.inr rfl
  · intro c hc
    rcases countryCreate_cases s "Test 1" "T" 303 with h | h <;>
      simp [update_queries, h] at hc
    · exact Or.inl hc
    · rcases hc with hc | hc
      · exact Or.inl hc
      · subst hc
        exact Or.inr ⟨(by decide : ("T" : String).length ≤ 2), rfl⟩
  · intro c hc
    rcases countryCreate_cases s "Test 1" "T" 303 with h | h <;>
      simp [delete_queries, h] at hc
    · exact Or.inl hc
    · rcases hc with hc | hc
      · exact Or.inl hc
      · subst hc
        exact Or.inr ⟨(by decide : ("T" : String).length ≤ 2), rfl⟩

/-- C4, witness: the row the update handler inserts into the empty store
has a sortname of length 1, within the length-2 bound. -/
theorem C4_witness :
    (⟨1, "T", "Test 1", 303⟩ : Country) ∈ emptyStore.countries ∨
    ((Country.mk 1 "T" "Test 1" 303).sortname.length ≤ 2 ∧
     (Country.mk 1 "T" "Test 1" 303).sortname.length = 1) :=
  (C4_inserted_sortname_length emptyStore).2.1 ⟨1, "T", "Test 1", 303⟩ (by decide)

/-! ### Claim C5 -/

/-- C5: deleting a `Country` cascades: afterwards no remaining country
has the deleted id, no remaining `State` references the deleted country,
every `State` that referenced it is gone, no remaining `City` references
any of those removed states, and every `City` that referenced one of
them is gone. -/
theorem C5_cascade_delete (s : Store) (cid : Nat) :
    (∀ c ∈ (deleteCountry s cid).countries, c.id ≠ cid) ∧
    (∀ st ∈ (deleteCountry s cid).states, st.country_id ≠ cid) ∧
    (∀ st ∈ s.states, st.country_id = cid → st ∉ (deleteCountry s cid).states) ∧
    (∀ ct ∈ (deleteCountry s cid).cities, ∀ st ∈ s.states,
      st.country_id = cid → ct.state_id ≠ st.id) ∧
    (∀ ct ∈ s.cities, (∃ st ∈ s.states, st.country_id = cid ∧ ct.state_id = st.id) →
      ct ∉ (deleteCountry s cid).cities) := by
  refine ⟨?_, ?_, ?_, ?_, ?_⟩
  · intro c hc
    simp only [deleteCountry, List.mem_filter, bne_iff_ne, ne_eq] at hc
    exact hc.2
  · intro st hst
    simp only [deleteCountry, List.mem_filter, bne_iff_ne, ne_eq] at hst
    exact hst.2
  · intro st hst heq hst'
    simp only [deleteCountry, List.mem_filter, bne_iff_ne, ne_eq] at hst'
    exact hst'.2 heq
  · intro ct hct st hst heq hid
    simp only [deleteCountry, List.mem_filter, Bool.not_eq_eq_eq_not,
      Bool.not_true, List.any_eq_false, List.mem_filter, beq_iff_eq] at hct
    exact hct.2 st ⟨hst, heq⟩ hid.symm
  · intro ct _ hex hct
    rcases hex with ⟨st, hst, heq, hid⟩
    simp only [deleteCountry, List.mem_filter, Bool.not_eq_eq_eq_not,
      Bool.not_true, List.any_eq_false, List.mem_filter, beq_iff_eq] at hct
    exact hct.2 st ⟨hst, heq⟩ hid.symm

/-- C5, witness: in a store with one country, one state under it and one
city under that state, deleting the country removes the state and,
transitively, the city. -/
theorem C5_witness :
    (⟨1, "S1", 1⟩ : State) ∉
      (deleteCountry ⟨[⟨1, "AA", "A", 1⟩], [⟨1, "S1", 1⟩], [⟨1, "C1", 1⟩], 2⟩ 1).states ∧
    (⟨1, "C1", 1⟩ : City) ∉
      (deleteCountry ⟨[⟨1, "AA", "A", 1⟩], [⟨1, "S1", 1⟩], [⟨1, "C1", 1⟩], 2⟩ 1).cities :=
  ⟨(C5_cascade_delete ⟨[⟨1, "AA", "A", 1⟩], [⟨1, "S1", 1⟩], [⟨1, "C1", 1⟩], 2⟩ 1).2.2.1
      ⟨1, "S1", 1⟩ (by decide) rfl,
   (C5_cascade_delete ⟨[⟨1, "AA", "A", 1⟩], [⟨1, "S1", 1⟩], [⟨1, "C1", 1⟩], 2⟩ 1).2.2.2.2
      ⟨1, "C1", 1⟩ (by decide) ⟨⟨1, "S1", 1⟩, by decide, rfl, rfl⟩⟩

/-! ### Claim C7 -/

/-- C7: the range-filter projection of the list/aggregate handler
returns at most 5 rows, and every returned row has an id in the
inclusive range [1, 50]. -/
theorem C7_between_range (s : Store) :
    (ormContext s).all_country_between.length ≤ 5 ∧
    ∀ c ∈ (ormContext s).all_country_between, 1 ≤ c.id ∧ c.id ≤ 50 := by
  constructor
  · simp only [ormContext, all_country_between, List.length_take]
    exact min_le_left 5 _
  · intro c hc
    simp only [ormContext] at hc
    have hmem : c ∈ s.countries.filter (fun c => 1 ≤ c.id && c.id ≤ 50) :=
      (List.take_sublist 5 _).mem hc
    have := (List.mem_filter.mp hmem).2
    simpa using this

/-- C7, witness: a store whose single country has id 1 returns that row,
and its id lies in [1, 50]. -/
theorem C7_witness :
    1 ≤ (Country.mk 1 "AA" "A" 7).id ∧ (Country.mk 1 "AA" "A" 7).id ≤ 50 :=
  (C7_between_range ⟨[⟨1, "AA", "A", 7⟩], [], [], 2⟩).2 ⟨1, "AA", "A", 7⟩ (by decide)

/-! ### Claim C8 -/

/-- C8: the list/aggregate handler is read-only — from every store it
returns the store unchanged, with a successful response carrying the
seven projections — and on the empty store all seven projections are
empty collections rather than failures. -/
theorem C8_list_handler_pure :
    (∀ s : Store, (all_orm_queries s).2 = s) ∧
    (∀ s : Store, (all_orm_queries s).1 =
      Except.ok (Response.rendered "orm_queries.html" (some (ormContext s)))) ∧
    ormContext emptyStore = ⟨[], [], [], [], [], [], []⟩ := by
  refine ⟨fun s => rfl, fun s => rfl, ?_⟩
  simp [ormContext, all_country_asc, all_country_desc, all_country_limit,
    all_country_distinct, all_country_between, all_country_select,
    all_country_count, emptyStore]

/-! ### Claim C6 -/

/-- C6: the ascending-sortname projection of the list/aggregate handler
returns at most 5 rows, and any earlier returned row's sortname is
lexicographically ≤ any later returned row's sortname. -/
theorem C6_asc_sorted (s : Store) :
    (ormContext s).all_country_asc.length ≤ 5 ∧
    (ormContext s).all_country_asc.Pairwise
      (fun a b => a.sortname ≤ b.sortname) := by
  constructor
  · simp only [ormContext, all_country_asc, List.length_take]
    exact min_le_left 5 _
  · have hsorted :
        (s.countries.mergeSort (fun a b => a.sortname ≤ b.sortname)).Pairwise
          (fun a b => (fun a b : Country => decide (a.sortname ≤ b.sortname)) a b
            = true) := by
      apply List.sorted_mergeSort
      · intro a b c hab hbc
        simp only [decide_eq_true_eq] at hab hbc ⊢
        exact le_trans hab hbc
      · intro a b
        simp only [Bool.or_eq_true, decide_eq_true_eq]
        exact le_total a.sortname b.sortname
    simp only [ormContext, all_country_asc]
    refine List.Pairwise.sublist (List.take_sublist 5 _) ?_
    refine List.Pairwise.imp ?_ hsorted
    intro a b h
    simpa using h

/-! ### Claim C1 -/

/-- A nonempty list all of whose elements equal `k` deduplicates to the
singleton `[k]`. -/
theorem dedup_const_eq_singleton {α : Type} [DecidableEq α] (l : List α) (k : α)
    (hne : l ≠ []) (hall : ∀ x ∈ l, x = k) : l.dedup = [k] := by
  induction l with
  | nil => exact absurd rfl hne
  | cons a l ih =>
    have ha : a = k := hall a (by simp)
    subst ha
    by_cases hl : l = []
    · subst hl
      simp
    · have hk : a ∈ l := by
        obtain ⟨x, hx⟩ := List.exists_mem_of_ne_nil l hl
        have := hall x (by simp [hx])
        rwa [this] at hx
      rw [List.dedup_cons_of_mem hk]
      exact ih hl (fun x hx => hall x (by simp [hx]))

/-- C1, counterexample: with two `State` rows both referencing country 1,
the aggregate returns the row `(1, 1)` — its count field is the count of
distinct country references in the group, 1, not the number of `State`
rows referencing that country, 2. -/
theorem C1_counterexample :
    ¬ (∀ p ∈ (ormContext ⟨[], [⟨1, "A", 1⟩, ⟨2, "B", 1⟩], [], 1⟩).all_country_count,
        p.2 = ((⟨[], [⟨1, "A", 1⟩, ⟨2, "B", 1⟩], [], 1⟩ : Store).states.filter
          (fun st => st.country_id == p.1)).length) := by
  decide

/-- C1, amended: the aggregate returns exactly one row per distinct
country reference present in the `states` table, but each returned row's
count field is `COUNT(DISTINCT country_id)` within its group, which is
always 1 — not the number of `State` rows referencing that country. -/
theorem C1_aggregate_one_row_per_country (s : Store) :
    ((ormContext s).all_country_count.map Prod.fst).Nodup ∧
    (∀ cid, cid ∈ (ormContext s).all_country_count.map Prod.fst ↔
      cid ∈ s.states.map (·.country_id)) ∧
    (∀ p ∈ (ormContext s).all_country_count, p.2 = 1) := by
  refine ⟨?_, ?_, ?_⟩
  · simp only [ormContext, all_country_count, List.map_map]
    have : (Prod.fst ∘ fun k : Nat =>
        (k, ((s.states.filter (fun st => st.country_id == k)).map
          (·.country_id)).dedup.length)) = id := by
      funext k
      rfl
    rw [this, List.map_id]
    exact List.nodup_dedup _
  · intro cid
    simp only [ormContext, all_country_count, List.map_map]
    constructor
    · intro h
      obtain ⟨k, hk, hkeq⟩ := List.mem_map.mp h
      have : cid = k := by simpa using hkeq.symm
      subst this
      exact List.mem_dedup.mp hk
    · intro h
      exact List.mem_map.mpr ⟨cid, List.mem_dedup.mpr h, rfl⟩
  · intro p hp
    simp only [ormContext, all_country_count, List.mem_map] at hp
    obtain ⟨k, hk, rfl⟩ := hp
    have hkmem : k ∈ s.states.map (·.country_id) := List.mem_dedup.mp hk
    obtain ⟨st, hst, hsteq⟩ := List.mem_map.mp hkmem
    have hfil : st ∈ s.states.filter (fun st => st.country_id == k) :=
      List.mem_filter.mpr ⟨hst, by simp [hsteq]⟩
    have hne : (s.states.filter (fun st => st.country_id == k)).map
        (·.country_id) ≠ [] := by
      intro hnil
      have : st.country_id ∈ (s.states.filter
          (fun st => st.country_id == k)).map (·.country_id) :=
        List.mem_map.mpr ⟨st, hfil, rfl⟩
      rw [hnil] at this
      exact absurd this (List.not_mem_nil _)
    have hall : ∀ x ∈ (s.states.filter (fun st => st.country_id == k)).map
        (·.country_id), x = k := by
      intro x hx
      obtain ⟨st', hst', hst'eq⟩ := List.mem_map.mp hx
      have := (List.mem_filter.mp hst').2
      simp only [beq_iff_eq] at this
      rw [← hst'eq]
      exact this
    simp [dedup_const_eq_singleton _ k hne hall]

/-- C1, witness: in a store with a single `State` referencing country 1,
the aggregate row for country 1 carries count 1. -/
theorem C1_witness : ((1 : Nat), (1 : Nat)).2 = 1 :=
  (C1_aggregate_one_row_per_country ⟨[], [⟨1, "A", 1⟩], [], 1⟩).2.2 (1, 1) (by decide)

end DjangoOrm
